import Mathlib

/-!
# Verification of the canopy-network/swap wallet and signing core

Shallow embedding of the key-management and transaction-signing core of the
`canopy-network/swap` client:

* `src/lib/crypto/wallet.ts` — password-based encryption/decryption of a
  private key (`encryptPrivateKey`, `decryptPrivateKey`, `verifyPassword`);
* the transaction module (`src/unnamed/part_001`) — `createAndSignTransaction`,
  the message constructors and `validateTransactionParams`;
* `src/lib/crypto/utils/order.ts` — the three build flows `createSignedOrder`,
  `createSignedEditOrder`, `createSignedDeleteOrder`;
* `src/lib/crypto.ts` — `CryptoUtils.clearSensitiveData`.

Byte sequences are `List Nat` (a valid byte is `< 256`).  External
cryptographic primitives (the Argon2 key derivation, AES-GCM encryption and
decryption, the curve signers) are third-party library calls, not code of this
repository; they enter the embedding as explicit function parameters, and the
theorems below assume exactly the contracts those primitives document (AEAD
round-trip, AEAD rejection under a wrong key, signature length).  Randomness
(`crypto.getRandomValues`) is modelled by passing the drawn bytes as an
explicit argument.  JavaScript numbers are modelled as `Int` (all involved
values are exact integers); the one floating-point division in the source,
`publicKey.length / 2`, is modelled as exact division in `ℚ`, which agrees
with IEEE doubles on every string length that can occur.
-/

deriving instance DecidableEq for Except

set_option maxRecDepth 4000

namespace Swap

/-- Byte strings as lists of naturals; a byte is valid when `< 256`. -/
abbrev Bytes := List Nat

/-- All members of the list are valid bytes. -/
def validBytes (bs : Bytes) : Bool := bs.all (fun b => b < 256)

/-! ## Hex encoding (`bytesToHex` / `hexToBytes` from `@noble/hashes/utils`)

`bytesToHex` renders each byte as two lowercase hex digits; `hexToBytes`
accepts upper- and lowercase digits and fails (throws, modelled as `none`) on
an odd-length string or a non-hex character. -/

/-- Lowercase hex digit for a value `< 16` (`0`–`9`, `a`–`f`). -/
def hexDigit (n : Nat) : Char :=
  if n < 10 then Char.ofNat (48 + n) else Char.ofNat (87 + n)

/-- The two hex characters of one byte (high nibble first). -/
def byteToHexChars (b : Nat) : List Char :=
  [hexDigit (b / 16), hexDigit (b % 16)]

/-- `bytesToHex` from `@noble/hashes/utils`: lowercase hex rendering. -/
def bytesToHex (bs : Bytes) : String :=
  String.mk (bs.flatMap byteToHexChars)

/-- Value of one hex character (`0-9`, `a-f`, `A-F`), `none` otherwise. -/
def hexVal? (c : Char) : Option Nat :=
  let n := c.toNat
  if 48 ≤ n ∧ n ≤ 57 then some (n - 48)
  else if 97 ≤ n ∧ n ≤ 102 then some (n - 87)
  else if 65 ≤ n ∧ n ≤ 70 then some (n - 55)
  else none

/-- Parse a character list two hex digits at a time; `none` on odd length or
on a non-hex character (`hexToBytes` throws there). -/
def hexPairsToBytes : List Char → Option Bytes
  | [] => some []
  | [_] => none
  | c1 :: c2 :: rest =>
    match hexVal? c1, hexVal? c2, hexPairsToBytes rest with
    | some h, some l, some tail => some ((16 * h + l) :: tail)
    | _, _, _ => none

/-- `hexToBytes` from `@noble/hashes/utils`. -/
def hexToBytes (s : String) : Option Bytes :=
  hexPairsToBytes s.data

theorem hexVal_hexDigit : ∀ n : Fin 16, hexVal? (hexDigit n.val) = some n.val := by
  decide

theorem hexPairsToBytes_flatMap (bs : Bytes) (h : validBytes bs = true) :
    hexPairsToBytes (bs.flatMap byteToHexChars) = some bs := by
  induction bs with
  | nil => rfl
  | cons b rest ih =>
    simp only [validBytes, List.all_cons, Bool.and_eq_true, decide_eq_true_eq] at h
    have hdiv : b / 16 < 16 := by omega
    have hmod : b % 16 < 16 := Nat.mod_lt _ (by omega)
    have h1 := hexVal_hexDigit ⟨b / 16, hdiv⟩
    have h2 := hexVal_hexDigit ⟨b % 16, hmod⟩
    have ihr := ih (by simpa [validBytes] using h.2)
    simp only [List.flatMap_cons, byteToHexChars, List.cons_append, List.nil_append]
    simp only [hexPairsToBytes, h1, h2, ihr]
    rw [Nat.div_add_mod]

/-- Round trip of the hex codec on valid bytes. -/
theorem hexToBytes_bytesToHex (bs : Bytes) (h : validBytes bs = true) :
    hexToBytes (bytesToHex bs) = some bs := by
  simpa [hexToBytes, bytesToHex] using hexPairsToBytes_flatMap bs h

theorem flatMap_byteToHexChars_length (bs : Bytes) :
    (bs.flatMap byteToHexChars).length = 2 * bs.length := by
  induction bs with
  | nil => rfl
  | cons b rest ih =>
    simp only [List.flatMap_cons, List.length_append, ih, byteToHexChars,
      List.length_cons, List.length_nil, List.length_singleton]
    omega

/-- Each byte contributes exactly two hex characters. -/
theorem bytesToHex_length (bs : Bytes) : (bytesToHex bs).length = 2 * bs.length := by
  simpa [bytesToHex] using flatMap_byteToHexChars_length bs

/-! ## KeyVault (`src/lib/crypto/wallet.ts`)

`deriveKey` wraps the external Argon2 primitive (`argon2i` from
`@noble/hashes`); it enters the model as a parameter
`kdf : String → Bytes → Bytes` (password, salt ↦ 32-byte key).  The Web
Crypto AES-GCM calls enter as parameters `aeadEnc` (key, nonce, plaintext ↦
ciphertext-with-tag) and `aeadDec` (key, nonce, ciphertext ↦ plaintext, or
`none` on authentication failure, where `crypto.subtle.decrypt` throws an
`OperationError`). -/

/-- `EncryptedCanopyKeyfile` from `@/types/wallet`: the at-rest keyfile
record returned by `encryptPrivateKey`. -/
structure EncryptedCanopyKeyfile where
  publicKey : String
  encrypted : String
  salt : String
  keyAddress : String
  keyNickname : String
deriving DecidableEq, Repr

/-- `SALT_LENGTH` (wallet.ts:32). -/
def SALT_LENGTH : Nat := 16

/-- `NONCE_LENGTH` (wallet.ts:33). -/
def NONCE_LENGTH : Nat := 12

/-- `encryptPrivateKey` (wallet.ts:64-109).  The 16 random salt bytes drawn by
`crypto.getRandomValues(new Uint8Array(SALT_LENGTH))` are passed in as the
explicit argument `salt`; `kdf` models `deriveKey` and `aeadEnc` models
`crypto.subtle.encrypt` with AES-GCM.  The nonce handed to the AEAD is
`derivedKey.slice(0, NONCE_LENGTH)`, i.e. the first 12 bytes of the derived
key (wallet.ts:88). -/
def encryptPrivateKey (kdf : String → Bytes → Bytes)
    (aeadEnc : Bytes → Bytes → Bytes → Bytes) (salt : Bytes)
    (publicKeyBytes privateKeyBytes : Bytes) (password address : String) :
    EncryptedCanopyKeyfile :=
  let derivedKey := kdf password salt
  let nonce := derivedKey.take NONCE_LENGTH
  let encryptedData := aeadEnc derivedKey nonce privateKeyBytes
  { publicKey := bytesToHex publicKeyBytes
    encrypted := bytesToHex encryptedData
    salt := bytesToHex salt
    keyAddress := address
    keyNickname := "" }

/-- The two error kinds of `decryptPrivateKey` (wallet.ts:151-161): an
`OperationError` from the AEAD (authentication failure, i.e. wrong password or
tampered ciphertext) is rethrown as the password message; every other thrown
error (e.g. `hexToBytes` on malformed hex) becomes the generic
`Failed to decrypt private key` message. -/
inductive DecryptError where
  | invalidPassword
  | decryptFailed
deriving DecidableEq, Repr

/-- `decryptPrivateKey` (wallet.ts:119-162). -/
def decryptPrivateKey (kdf : String → Bytes → Bytes)
    (aeadDec : Bytes → Bytes → Bytes → Option Bytes)
    (encryptedKeyPair : EncryptedCanopyKeyfile) (password : String) :
    Except DecryptError Bytes :=
  match hexToBytes encryptedKeyPair.salt with
  | none => .error .decryptFailed
  | some salt =>
    match hexToBytes encryptedKeyPair.encrypted with
    | none => .error .decryptFailed
    | some encryptedData =>
      let derivedKey := kdf password salt
      let nonce := derivedKey.take NONCE_LENGTH
      match aeadDec derivedKey nonce encryptedData with
      | some decryptedData => .ok decryptedData
      | none => .error .invalidPassword

/-- `verifyPassword` (wallet.ts:171-181): `try { await decryptPrivateKey…;
return true } catch { return false }` — the bare `catch` swallows every error
kind. -/
def verifyPassword (kdf : String → Bytes → Bytes)
    (aeadDec : Bytes → Bytes → Bytes → Option Bytes)
    (encrypted : EncryptedCanopyKeyfile) (password : String) : Bool :=
  match decryptPrivateKey kdf aeadDec encrypted password with
  | .ok _ => true
  | .error _ => false

/-! ## Transaction module (`src/unnamed/part_001`)

Types from `src/lib/crypto/types` (not under `src/`): `TransactionMessage` is
the union of the four message payload shapes the module constructs; JavaScript
numbers are `Int`. -/

/-- The four message payloads built by `createSendMessage`,
`createOrderMessage`, `createEditOrderMessage`, `createDeleteOrderMessage`. -/
inductive TransactionMessage where
  | send (fromAddress toAddress : String) (amount : Int)
  | createOrder (chainId : Int) (data : String)
      (amountForSale requestedAmount : Int)
      (sellerReceiveAddress sellersSendAddress : String) (orderId : String)
  | editOrder (orderId : String) (chainId : Int) (data : String)
      (amountForSale requestedAmount : Int) (sellerReceiveAddress : String)
  | deleteOrder (orderId : String) (chainId : Int)
deriving DecidableEq, Repr

/-- The `orderId` field of a message payload (`send` has none). -/
def TransactionMessage.orderIdField : TransactionMessage → Option String
  | .send _ _ _ => none
  | .createOrder _ _ _ _ _ _ orderId => some orderId
  | .editOrder orderId _ _ _ _ _ => some orderId
  | .deleteOrder orderId _ => some orderId

/-- `CurveType` from `src/lib/crypto/types`. -/
inductive CurveType where
  | ED25519
  | BLS12381
deriving DecidableEq, Repr

/-- `TransactionParams` from `src/lib/crypto/types`, as consumed by
`createAndSignTransaction` and `validateTransactionParams`. -/
structure TransactionParams where
  type : String
  msg : TransactionMessage
  fee : Int
  memo : String
  networkID : Int
  chainID : Int
  height : Int
deriving DecidableEq, Repr

/-- `TransactionSignature` from `src/lib/crypto/types`. -/
structure TransactionSignature where
  publicKey : String
  signature : String
deriving DecidableEq, Repr

/-- `Omit<RawTransaction, "signature">` — the unsigned transaction built at
part_001:40-49. -/
structure UnsignedTransaction where
  type : String
  msg : TransactionMessage
  time : Int
  createdHeight : Int
  fee : Int
  memo : String
  networkID : Int
  chainID : Int
deriving DecidableEq, Repr

/-- `RawTransaction` from `src/lib/crypto/types`. -/
structure RawTransaction where
  type : String
  msg : TransactionMessage
  time : Int
  createdHeight : Int
  fee : Int
  memo : String
  networkID : Int
  chainID : Int
  signature : TransactionSignature
deriving DecidableEq, Repr

/-- `SendRawTransactionRequest` from `@/types/wallet`. -/
structure SendRawTransactionRequest where
  raw_transaction : RawTransaction
deriving DecidableEq, Repr

/-- `createAndSignTransaction` (part_001:32-74).  The imports
`getSignBytesProtobuf` (`./protobuf`) and `signMessage` (`./signing`) are
repository modules absent from the sources, so they enter as the parameters
`getSignBytesProtobuf` and `signMessage`; `now` models `Date.now()`
(milliseconds, multiplied by 1000 at part_001:43).  Note the function performs
no parameter validation: it builds the unsigned transaction, signs its
protobuf bytes, and packages the result. -/
def createAndSignTransaction
    (getSignBytesProtobuf : UnsignedTransaction → Bytes)
    (signMessage : Bytes → String → CurveType → String)
    (now : Int) (params : TransactionParams)
    (privateKeyHex publicKeyHex : String) (curveType : CurveType) :
    SendRawTransactionRequest :=
  let unsignedTx : UnsignedTransaction :=
    { type := params.type
      msg := params.msg
      time := now * 1000
      createdHeight := params.height
      fee := params.fee
      memo := params.memo
      networkID := params.networkID
      chainID := params.chainID }
  let signBytes := getSignBytesProtobuf unsignedTx
  let signatureHex := signMessage signBytes privateKeyHex curveType
  let signature : TransactionSignature :=
    { publicKey := publicKeyHex, signature := signatureHex }
  let signedTx : RawTransaction :=
    { type := unsignedTx.type
      msg := unsignedTx.msg
      time := unsignedTx.time
      createdHeight := unsignedTx.createdHeight
      fee := unsignedTx.fee
      memo := unsignedTx.memo
      networkID := unsignedTx.networkID
      chainID := unsignedTx.chainID
      signature := signature }
  { raw_transaction := signedTx }

/-- `createOrderMessage` (part_001:112-129): `orderId` is the literal empty
string (part_001:127, populated later by the backend). -/
def createOrderMessage (chainId : Int) (data : String)
    (amountForSale requestedAmount : Int)
    (sellerReceiveAddress sellersSendAddress : String) : TransactionMessage :=
  .createOrder chainId data amountForSale requestedAmount
    sellerReceiveAddress sellersSendAddress ""

/-- `createEditOrderMessage` (part_001:144-160). -/
def createEditOrderMessage (orderId : String) (chainId : Int) (data : String)
    (amountForSale requestedAmount : Int) (sellerReceiveAddress : String) :
    TransactionMessage :=
  .editOrder orderId chainId data amountForSale requestedAmount
    sellerReceiveAddress

/-- `createDeleteOrderMessage` (part_001:171-179). -/
def createDeleteOrderMessage (orderId : String) (chainId : Int) :
    TransactionMessage :=
  .deleteOrder orderId chainId

/-- `validateTransactionParams` (part_001:187-222), checks in source order.
The `typeof` guards are discharged by typing; `!params.type` is the
empty-string test, `!params.msg` cannot fail for a typed message object, and
the memo guard `params.memo && params.memo.length > 200` skips the falsy empty
string. -/
def validateTransactionParams (params : TransactionParams) :
    Except String Unit :=
  if params.type = "" then
    .error "Invalid message type: must be a non-empty string"
  else if params.fee < 0 then
    .error "Invalid fee: must be a non-negative number"
  else if params.networkID ≤ 0 then
    .error "Invalid network ID: must be a positive number"
  else if params.chainID ≤ 0 then
    .error "Invalid chain ID: must be a positive number"
  else if params.height < 0 then
    .error "Invalid height: must be a non-negative number"
  else if params.memo ≠ "" ∧ params.memo.length > 200 then
    .error "Invalid memo: must be 200 characters or less"
  else
    .ok ()

/-- Modelled from the spec: the signing module (`./signing`, a repository
file absent from the sources — only its caller `createAndSignTransaction` is
present).  Per the spec, `signMessage` dispatches on the curve type and
hex-encodes the curve signature; the ED25519 signer "produces a 64-byte raw
signature" and BLS12381 "a curve-appropriate compressed signature".  The two
curve signers themselves are external primitives and enter as parameters. -/
def signMessage (ed25519Sign blsSign : Bytes → String → Bytes)
    (bytes : Bytes) (privateKeyHex : String) : CurveType → String
  | .ED25519 => bytesToHex (ed25519Sign bytes privateKeyHex)
  | .BLS12381 => bytesToHex (blsSign bytes privateKeyHex)

/-! ## Build flows (`src/lib/crypto/utils/order.ts`) -/

/-- `CanopyWalletAccount` from `@/types/wallet`, restricted to the one field
the build flows read (`storedKey.encryptedKeyfile`). -/
structure CanopyWalletAccount where
  encryptedKeyfile : EncryptedCanopyKeyfile
deriving DecidableEq, Repr

/-- The `orderParams` record of `createSignedOrder` (order.ts:36-43). -/
structure OrderParams where
  chainId : Int
  data : String
  amountForSale : Int
  requestedAmount : Int
  sellerReceiveAddress : String
  sellersSendAddress : String
deriving DecidableEq, Repr

/-- The `editParams` record of `createSignedEditOrder` (order.ts:109-116). -/
structure EditOrderParams where
  orderId : String
  chainId : Int
  data : String
  amountForSale : Int
  requestedAmount : Int
  sellerReceiveAddress : String
deriving DecidableEq, Repr

/-- The `deleteParams` record of `createSignedDeleteOrder`
(order.ts:181-184). -/
structure DeleteOrderParams where
  orderId : String
  chainId : Int
deriving DecidableEq, Repr

/-- The `networkParams` record shared by the three flows (order.ts:44-49). -/
structure NetworkParams where
  networkID : Int
  chainID : Int
  currentHeight : Int
  fee : Int
deriving DecidableEq, Repr

/-- Curve detection as written inline in `createSignedOrder`
(order.ts:61-63): `const publicKeyBytes = publicKey.length / 2;
publicKeyBytes === 48 ? BLS12381 : ED25519`.  The JavaScript `/` is exact
(floating-point) division, modelled in `ℚ`. -/
def createSignedOrderCurve (storedKey : CanopyWalletAccount) : CurveType :=
  let publicKeyBytes : ℚ := (storedKey.encryptedKeyfile.publicKey.length : ℚ) / 2
  if publicKeyBytes = 48 then CurveType.BLS12381 else CurveType.ED25519

/-- Curve detection as written inline in `createSignedEditOrder`
(order.ts:133-135), identical expression. -/
def createSignedEditOrderCurve (storedKey : CanopyWalletAccount) : CurveType :=
  let publicKeyBytes : ℚ := (storedKey.encryptedKeyfile.publicKey.length : ℚ) / 2
  if publicKeyBytes = 48 then CurveType.BLS12381 else CurveType.ED25519

/-- Curve detection as written inline in `createSignedDeleteOrder`
(order.ts:201-203), identical expression. -/
def createSignedDeleteOrderCurve (storedKey : CanopyWalletAccount) : CurveType :=
  let publicKeyBytes : ℚ := (storedKey.encryptedKeyfile.publicKey.length : ℚ) / 2
  if publicKeyBytes = 48 then CurveType.BLS12381 else CurveType.ED25519

/-- `createSignedOrder` (order.ts:33-95).  A `decryptPrivateKey` rejection
propagates out of the `async` function unchanged (`Except.error`).  The
per-byte hex rendering at order.ts:55-57 (`toString(16).padStart(2, "0")`,
joined) coincides with `bytesToHex` on byte values.  The decrypted
`privateKeyBytes` buffer is used to build `privateKeyHex` and is never
mutated, cleared or zeroed afterwards. -/
def createSignedOrder (kdf : String → Bytes → Bytes)
    (aeadDec : Bytes → Bytes → Bytes → Option Bytes)
    (getSignBytesProtobuf : UnsignedTransaction → Bytes)
    (sign : Bytes → String → CurveType → String) (now : Int)
    (storedKey : CanopyWalletAccount) (password : String)
    (orderParams : OrderParams) (networkParams : NetworkParams) :
    Except DecryptError SendRawTransactionRequest :=
  match decryptPrivateKey kdf aeadDec storedKey.encryptedKeyfile password with
  | .error e => .error e
  | .ok privateKeyBytes =>
    let privateKeyHex := bytesToHex privateKeyBytes
    let curveType := createSignedOrderCurve storedKey
    let orderMsg := createOrderMessage orderParams.chainId orderParams.data
      orderParams.amountForSale orderParams.requestedAmount
      orderParams.sellerReceiveAddress orderParams.sellersSendAddress
    let txParams : TransactionParams :=
      { type := "createOrder"
        msg := orderMsg
        fee := networkParams.fee
        memo := ""
        networkID := networkParams.networkID
        chainID := networkParams.chainID
        height := networkParams.currentHeight }
    .ok (createAndSignTransaction getSignBytesProtobuf sign now txParams
      privateKeyHex storedKey.encryptedKeyfile.publicKey curveType)

/-- `createSignedEditOrder` (order.ts:106-167). -/
def createSignedEditOrder (kdf : String → Bytes → Bytes)
    (aeadDec : Bytes → Bytes → Bytes → Option Bytes)
    (getSignBytesProtobuf : UnsignedTransaction → Bytes)
    (sign : Bytes → String → CurveType → String) (now : Int)
    (storedKey : CanopyWalletAccount) (password : String)
    (editParams : EditOrderParams) (networkParams : NetworkParams) :
    Except DecryptError SendRawTransactionRequest :=
  match decryptPrivateKey kdf aeadDec storedKey.encryptedKeyfile password with
  | .error e => .error e
  | .ok privateKeyBytes =>
    let privateKeyHex := bytesToHex privateKeyBytes
    let curveType := createSignedEditOrderCurve storedKey
    let editMsg := createEditOrderMessage editParams.orderId editParams.chainId
      editParams.data editParams.amountForSale editParams.requestedAmount
      editParams.sellerReceiveAddress
    let txParams : TransactionParams :=
      { type := "editOrder"
        msg := editMsg
        fee := networkParams.fee
        memo := ""
        networkID := networkParams.networkID
        chainID := networkParams.chainID
        height := networkParams.currentHeight }
    .ok (createAndSignTransaction getSignBytesProtobuf sign now txParams
      privateKeyHex storedKey.encryptedKeyfile.publicKey curveType)

/-- `createSignedDeleteOrder` (order.ts:178-231). -/
def createSignedDeleteOrder (kdf : String → Bytes → Bytes)
    (aeadDec : Bytes → Bytes → Bytes → Option Bytes)
    (getSignBytesProtobuf : UnsignedTransaction → Bytes)
    (sign : Bytes → String → CurveType → String) (now : Int)
    (storedKey : CanopyWalletAccount) (password : String)
    (deleteParams : DeleteOrderParams) (networkParams : NetworkParams) :
    Except DecryptError SendRawTransactionRequest :=
  match decryptPrivateKey kdf aeadDec storedKey.encryptedKeyfile password with
  | .error e => .error e
  | .ok privateKeyBytes =>
    let privateKeyHex := bytesToHex privateKeyBytes
    let curveType := createSignedDeleteOrderCurve storedKey
    let deleteMsg := createDeleteOrderMessage deleteParams.orderId
      deleteParams.chainId
    let txParams : TransactionParams :=
      { type := "deleteOrder"
        msg := deleteMsg
        fee := networkParams.fee
        memo := ""
        networkID := networkParams.networkID
        chainID := networkParams.chainID
        height := networkParams.currentHeight }
    .ok (createAndSignTransaction getSignBytesProtobuf sign now txParams
      privateKeyHex storedKey.encryptedKeyfile.publicKey curveType)

/-- The contents of the decrypted private-key buffer when `createSignedOrder`
exits (`none` when decryption failed, so no buffer was materialized).  The
flow body (order.ts:51-95) contains no mutation, clearing call or zeroing of
`privateKeyBytes` on any path, so at exit the buffer still holds exactly the
decrypted bytes. -/
def createSignedOrderFinalKeyBuffer (kdf : String → Bytes → Bytes)
    (aeadDec : Bytes → Bytes → Bytes → Option Bytes)
    (storedKey : CanopyWalletAccount) (password : String) : Option Bytes :=
  match decryptPrivateKey kdf aeadDec storedKey.encryptedKeyfile password with
  | .error _ => none
  | .ok privateKeyBytes => some privateKeyBytes

/-- `CryptoUtils.clearSensitiveData` (src/lib/crypto.ts:171-178).  The body
iterates `data.forEach` and, for each string item, executes
`item = "\0".repeat(item.length)` — which reassigns only the callback's local
parameter binding; neither the array nor any argument string is modified.
Observably the call leaves every input unchanged, which the model makes
explicit by returning the arguments. -/
def clearSensitiveData (data : List (Option String)) : List (Option String) :=
  data.map (fun item => item)

/-! ## Concrete fixtures

Concrete key-derivation and AEAD instances used to evaluate the model at
specific inputs: `constKdf`/`okAead` make decryption succeed with a fixed
buffer, `shiftKdf` derives a key that depends injectively on the password
length, and `taggedEnc`/`taggedDec` form an authenticated toy cipher that
stores the key as a tag and rejects any other key of the same length. -/

def constKdf : String → Bytes → Bytes := fun _ _ => List.replicate 32 0

def okAead : Bytes → Bytes → Bytes → Option Bytes :=
  fun _ _ _ => some (List.replicate 32 1)

def shiftKdf : String → Bytes → Bytes :=
  fun password _ => List.replicate 32 password.length

def taggedEnc : Bytes → Bytes → Bytes → Bytes :=
  fun key _ plaintext => key ++ plaintext

def taggedDec : Bytes → Bytes → Bytes → Option Bytes :=
  fun key _ ciphertext =>
    if ciphertext.take key.length = key then some (ciphertext.drop key.length)
    else none

def testKeyfile : EncryptedCanopyKeyfile :=
  { publicKey := String.mk (List.replicate 64 'a')
    encrypted := "00"
    salt := "00112233445566778899aabbccddeeff"
    keyAddress := ""
    keyNickname := "" }

def testAccount : CanopyWalletAccount := ⟨testKeyfile⟩

/-- A keyfile whose `salt` field is not valid hex: `hexToBytes` throws a
non-`OperationError`, so decryption fails with the generic (non-password)
error kind. -/
def corruptSaltKeyfile : EncryptedCanopyKeyfile :=
  { publicKey := "", encrypted := "", salt := "zz",
    keyAddress := "", keyNickname := "" }

def testOrderParams : OrderParams :=
  { chainId := 1, data := "", amountForSale := 100, requestedAmount := 50,
    sellerReceiveAddress := "aa", sellersSendAddress := "bb" }

def negFeeNetworkParams : NetworkParams :=
  { networkID := 1, chainID := 1, currentHeight := 500, fee := -1 }

def negFeeParams : TransactionParams :=
  { type := "createOrder", msg := createOrderMessage 1 "" 100 50 "aa" "bb",
    fee := -1, memo := "", networkID := 1, chainID := 1, height := 500 }

def zeroNetworkIdParams : TransactionParams :=
  { type := "createOrder", msg := createOrderMessage 1 "" 100 50 "aa" "bb",
    fee := 10000, memo := "", networkID := 0, chainID := 1, height := 500 }

def longMemoParams : TransactionParams :=
  { type := "createOrder", msg := createOrderMessage 1 "" 100 50 "aa" "bb",
    fee := 10000, memo := String.mk (List.replicate 201 'a'),
    networkID := 1, chainID := 1, height := 500 }

def negHeightParams : TransactionParams :=
  { type := "createOrder", msg := createOrderMessage 1 "" 100 50 "aa" "bb",
    fee := 10000, memo := "", networkID := 1, chainID := 1, height := -1 }

/-! ## Claims -/

/-- Claim C1.  The claim says every parameter-bound violation makes the build
operation fail with `InvalidParameter` before any cryptographic work.  The
bounds are exactly the ones `validateTransactionParams` (part_001:187-222)
implements — each of the four named violations is rejected by it — but no
build path ever calls it: `createAndSignTransaction` (part_001:32-74) signs
unconditionally, and `createSignedOrder` invokes it directly, so a build with
`fee = -1` succeeds and returns a signed transaction carrying `fee = -1`. -/
theorem build_skips_parameter_validation :
    validateTransactionParams negFeeParams =
      .error "Invalid fee: must be a non-negative number" ∧
    validateTransactionParams zeroNetworkIdParams =
      .error "Invalid network ID: must be a positive number" ∧
    validateTransactionParams longMemoParams =
      .error "Invalid memo: must be 200 characters or less" ∧
    validateTransactionParams negHeightParams =
      .error "Invalid height: must be a non-negative number" ∧
    (createAndSignTransaction (fun _ => []) (fun _ _ _ => "") 0 negFeeParams
      "aa" "bb" CurveType.ED25519).raw_transaction.fee = -1 ∧
    (createSignedOrder constKdf okAead (fun _ => []) (fun _ _ _ => "") 0
        testAccount "pw" testOrderParams negFeeNetworkParams).map
      (fun r => r.raw_transaction.fee) = .ok (-1) := by
  refine ⟨by decide, by decide, ?_, by decide, by decide, by decide⟩
  decide

/-- Claim C2: decrypting the keyfile produced by `encryptPrivateKey` with the
same password returns exactly the original private-key bytes.  The Argon2
derivation and the AES-GCM cipher are external primitives (parameters `kdf`,
`aeadEnc`, `aeadDec`); `hinv` is the AEAD round-trip contract at the derived
key and nonce, and `hsalt`/`hct` say salt and ciphertext are byte strings
(guaranteed for `Uint8Array` values). -/
theorem decrypt_encrypt_roundtrip
    (kdf : String → Bytes → Bytes)
    (aeadEnc : Bytes → Bytes → Bytes → Bytes)
    (aeadDec : Bytes → Bytes → Bytes → Option Bytes)
    (salt pub k : Bytes) (p addr : String)
    (hsalt : validBytes salt = true)
    (hct : validBytes
      (aeadEnc (kdf p salt) ((kdf p salt).take NONCE_LENGTH) k) = true)
    (hinv : aeadDec (kdf p salt) ((kdf p salt).take NONCE_LENGTH)
      (aeadEnc (kdf p salt) ((kdf p salt).take NONCE_LENGTH) k) = some k) :
    decryptPrivateKey kdf aeadDec
      (encryptPrivateKey kdf aeadEnc salt pub k p addr) p = .ok k := by
  simp only [decryptPrivateKey, encryptPrivateKey]
  rw [hexToBytes_bytesToHex salt hsalt, hexToBytes_bytesToHex _ hct]
  simp [hinv]

/-- Witness for `decrypt_encrypt_roundtrip` at the shift-derived key and the
tagged toy AEAD, password `"a"`, a 32-byte all-ones key. -/
theorem decrypt_encrypt_roundtrip_witness :
    validBytes (List.replicate 16 7) = true ∧
    validBytes (taggedEnc (shiftKdf "a" (List.replicate 16 7))
      ((shiftKdf "a" (List.replicate 16 7)).take NONCE_LENGTH)
      (List.replicate 32 1)) = true ∧
    taggedDec (shiftKdf "a" (List.replicate 16 7))
      ((shiftKdf "a" (List.replicate 16 7)).take NONCE_LENGTH)
      (taggedEnc (shiftKdf "a" (List.replicate 16 7))
        ((shiftKdf "a" (List.replicate 16 7)).take NONCE_LENGTH)
        (List.replicate 32 1)) = some (List.replicate 32 1) ∧
    decryptPrivateKey shiftKdf taggedDec
      (encryptPrivateKey shiftKdf taggedEnc (List.replicate 16 7) [1, 2]
        (List.replicate 32 1) "a" "addr") "a" = .ok (List.replicate 32 1) :=
  ⟨by decide, by decide, by decide,
    decrypt_encrypt_roundtrip shiftKdf taggedEnc taggedDec
      (List.replicate 16 7) [1, 2] (List.replicate 32 1) "a" "addr"
      (by decide) (by decide) (by decide)⟩

/-- Claim C3 counterexample: on a keyfile whose `salt` is malformed hex,
`decryptPrivateKey` fails with the generic non-password error kind, yet
`verifyPassword` returns `false` instead of propagating it — its bare `catch`
(wallet.ts:178) swallows every error kind, contradicting the claim that
non-`InvalidPassword` errors are re-raised. -/
theorem verifyPassword_swallows_corrupt_keyfile_error :
    decryptPrivateKey constKdf okAead corruptSaltKeyfile "pw" =
      .error .decryptFailed ∧
    verifyPassword constKdf okAead corruptSaltKeyfile "pw" = false := by
  exact ⟨by decide, by decide⟩

/-- Claim C3, amended: `verifyPassword` attempts decryption and returns
`false` on every decryption failure — the password kind and every other kind
alike — and never propagates any error. -/
theorem verifyPassword_false_on_any_decrypt_error
    (kdf : String → Bytes → Bytes)
    (aeadDec : Bytes → Bytes → Bytes → Option Bytes)
    (kf : EncryptedCanopyKeyfile) (pw : String) (e : DecryptError)
    (h : decryptPrivateKey kdf aeadDec kf pw = .error e) :
    verifyPassword kdf aeadDec kf pw = false := by
  simp [verifyPassword, h]

/-- Witness for `verifyPassword_false_on_any_decrypt_error` at the
corrupt-salt keyfile (a non-password error kind). -/
theorem verifyPassword_false_on_any_decrypt_error_witness :
    decryptPrivateKey constKdf okAead corruptSaltKeyfile "x" =
      .error .decryptFailed ∧
    verifyPassword constKdf okAead corruptSaltKeyfile "x" = false :=
  ⟨by decide,
    verifyPassword_false_on_any_decrypt_error constKdf okAead
      corruptSaltKeyfile "x" .decryptFailed (by decide)⟩

/-- Claim C4: decrypting with a wrong password fails with the
`InvalidPassword` kind and returns no plaintext.  `hauth` is the AEAD
authentication contract of AES-GCM: decrypting this ciphertext under the key
derived from the other password fails (the cryptographic guarantee the claim
rests on, external to the repository); the wallet code then classifies the
resulting `OperationError` as the password error (wallet.ts:153-156). -/
theorem wrong_password_yields_invalidPassword
    (kdf : String → Bytes → Bytes)
    (aeadEnc : Bytes → Bytes → Bytes → Bytes)
    (aeadDec : Bytes → Bytes → Bytes → Option Bytes)
    (salt pub k : Bytes) (p p' addr : String)
    (_hne : p' ≠ p)
    (hsalt : validBytes salt = true)
    (hct : validBytes
      (aeadEnc (kdf p salt) ((kdf p salt).take NONCE_LENGTH) k) = true)
    (hauth : aeadDec (kdf p' salt) ((kdf p' salt).take NONCE_LENGTH)
      (aeadEnc (kdf p salt) ((kdf p salt).take NONCE_LENGTH) k) = none) :
    decryptPrivateKey kdf aeadDec
      (encryptPrivateKey kdf aeadEnc salt pub k p addr) p' =
      .error .invalidPassword := by
  simp only [decryptPrivateKey, encryptPrivateKey]
  rw [hexToBytes_bytesToHex salt hsalt, hexToBytes_bytesToHex _ hct]
  simp [hauth]

/-- Witness for `wrong_password_yields_invalidPassword`: passwords `"a"` and
`"bb"` derive different keys under `shiftKdf`, and the tagged toy AEAD
rejects the wrong key. -/
theorem wrong_password_yields_invalidPassword_witness :
    ("bb" : String) ≠ "a" ∧
    validBytes (List.replicate 16 7) = true ∧
    validBytes (taggedEnc (shiftKdf "a" (List.replicate 16 7))
      ((shiftKdf "a" (List.replicate 16 7)).take NONCE_LENGTH)
      (List.replicate 32 1)) = true ∧
    taggedDec (shiftKdf "bb" (List.replicate 16 7))
      ((shiftKdf "bb" (List.replicate 16 7)).take NONCE_LENGTH)
      (taggedEnc (shiftKdf "a" (List.replicate 16 7))
        ((shiftKdf "a" (List.replicate 16 7)).take NONCE_LENGTH)
        (List.replicate 32 1)) = none ∧
    decryptPrivateKey shiftKdf taggedDec
      (encryptPrivateKey shiftKdf taggedEnc (List.replicate 16 7) [1, 2]
        (List.replicate 32 1) "a" "addr") "bb" = .error .invalidPassword :=
  ⟨by decide, by decide, by decide, by decide,
    wrong_password_yields_invalidPassword shiftKdf taggedEnc taggedDec
      (List.replicate 16 7) [1, 2] (List.replicate 32 1) "a" "bb" "addr"
      (by decide) (by decide) (by decide) (by decide)⟩

/-- The JavaScript test `publicKey.length / 2 === 48` (exact division) holds
exactly when the hex string has 96 characters. -/
theorem natCast_div_two_eq_48_iff (n : Nat) : ((n : ℚ) / 2 = 48) ↔ n = 96 := by
  rw [div_eq_iff (by norm_num : (2 : ℚ) ≠ 0)]
  norm_num
  exact_mod_cast Iff.rfl

theorem createSignedOrderCurve_eq (a : CanopyWalletAccount) :
    createSignedOrderCurve a =
      if a.encryptedKeyfile.publicKey.length = 96 then CurveType.BLS12381
      else CurveType.ED25519 := by
  unfold createSignedOrderCurve
  simp only [natCast_div_two_eq_48_iff]

theorem createSignedEditOrderCurve_eq (a : CanopyWalletAccount) :
    createSignedEditOrderCurve a =
      if a.encryptedKeyfile.publicKey.length = 96 then CurveType.BLS12381
      else CurveType.ED25519 := by
  unfold createSignedEditOrderCurve
  simp only [natCast_div_two_eq_48_iff]

theorem createSignedDeleteOrderCurve_eq (a : CanopyWalletAccount) :
    createSignedDeleteOrderCurve a =
      if a.encryptedKeyfile.publicKey.length = 96 then CurveType.BLS12381
      else CurveType.ED25519 := by
  unfold createSignedDeleteOrderCurve
  simp only [natCast_div_two_eq_48_iff]

/-- Claim C5: curve detection is a pure function of public-key hex length in
every build flow — 64 hex characters (32 bytes) select ED25519 and 96 hex
characters (48 bytes) select BLS12381, identically in `createSignedOrder`,
`createSignedEditOrder` and `createSignedDeleteOrder`. -/
theorem curve_selection_by_hex_length (a : CanopyWalletAccount) :
    (a.encryptedKeyfile.publicKey.length = 64 →
      createSignedOrderCurve a = CurveType.ED25519 ∧
      createSignedEditOrderCurve a = CurveType.ED25519 ∧
      createSignedDeleteOrderCurve a = CurveType.ED25519) ∧
    (a.encryptedKeyfile.publicKey.length = 96 →
      createSignedOrderCurve a = CurveType.BLS12381 ∧
      createSignedEditOrderCurve a = CurveType.BLS12381 ∧
      createSignedDeleteOrderCurve a = CurveType.BLS12381) := by
  rw [createSignedOrderCurve_eq, createSignedEditOrderCurve_eq,
    createSignedDeleteOrderCurve_eq]
  constructor
  · intro h64
    simp [h64]
  · intro h96
    simp [h96]

def bls48Keyfile : EncryptedCanopyKeyfile :=
  { publicKey := String.mk (List.replicate 96 'b'), encrypted := "00",
    salt := "00112233445566778899aabbccddeeff",
    keyAddress := "", keyNickname := "" }

def bls48Account : CanopyWalletAccount := ⟨bls48Keyfile⟩

/-- Witness for `curve_selection_by_hex_length` at a 64-character and a
96-character public key. -/
theorem curve_selection_by_hex_length_witness :
    (testAccount.encryptedKeyfile.publicKey.length = 64 ∧
      createSignedOrderCurve testAccount = CurveType.ED25519 ∧
      createSignedEditOrderCurve testAccount = CurveType.ED25519 ∧
      createSignedDeleteOrderCurve testAccount = CurveType.ED25519) ∧
    (bls48Account.encryptedKeyfile.publicKey.length = 96 ∧
      createSignedOrderCurve bls48Account = CurveType.BLS12381 ∧
      createSignedEditOrderCurve bls48Account = CurveType.BLS12381 ∧
      createSignedDeleteOrderCurve bls48Account = CurveType.BLS12381) :=
  ⟨⟨by decide, (curve_selection_by_hex_length testAccount).1 (by decide)⟩,
    ⟨by decide, (curve_selection_by_hex_length bls48Account).2 (by decide)⟩⟩

/-- Claim C10: detection never fails and defaults to ED25519 — every
public-key hex length other than exactly 96 (including malformed lengths such
as 40 or 100) selects ED25519, and exactly 96 selects BLS12381, in the flows'
detection expressions (which are total: no error is possible). -/
theorem curve_detection_total_default_ed25519 (a : CanopyWalletAccount) :
    (a.encryptedKeyfile.publicKey.length ≠ 96 →
      createSignedOrderCurve a = CurveType.ED25519 ∧
      createSignedEditOrderCurve a = CurveType.ED25519 ∧
      createSignedDeleteOrderCurve a = CurveType.ED25519) ∧
    (a.encryptedKeyfile.publicKey.length = 96 →
      createSignedOrderCurve a = CurveType.BLS12381 ∧
      createSignedEditOrderCurve a = CurveType.BLS12381 ∧
      createSignedDeleteOrderCurve a = CurveType.BLS12381) := by
  rw [createSignedOrderCurve_eq, createSignedEditOrderCurve_eq,
    createSignedDeleteOrderCurve_eq]
  constructor
  · intro hne
    simp [hne]
  · intro h96
    simp [h96]

def oddLen40Account : CanopyWalletAccount :=
  ⟨{ publicKey := String.mk (List.replicate 40 'c'), encrypted := "00",
     salt := "00112233445566778899aabbccddeeff",
     keyAddress := "", keyNickname := "" }⟩

def oddLen100Account : CanopyWalletAccount :=
  ⟨{ publicKey := String.mk (List.replicate 100 'd'), encrypted := "00",
     salt := "00112233445566778899aabbccddeeff",
     keyAddress := "", keyNickname := "" }⟩

/-- Witness for `curve_detection_total_default_ed25519` at the malformed
lengths 40 and 100 and at length 96. -/
theorem curve_detection_total_default_ed25519_witness :
    (oddLen40Account.encryptedKeyfile.publicKey.length ≠ 96 ∧
      createSignedOrderCurve oddLen40Account = CurveType.ED25519 ∧
      createSignedEditOrderCurve oddLen40Account = CurveType.ED25519 ∧
      createSignedDeleteOrderCurve oddLen40Account = CurveType.ED25519) ∧
    (oddLen100Account.encryptedKeyfile.publicKey.length ≠ 96 ∧
      createSignedOrderCurve oddLen100Account = CurveType.ED25519 ∧
      createSignedEditOrderCurve oddLen100Account = CurveType.ED25519 ∧
      createSignedDeleteOrderCurve oddLen100Account = CurveType.ED25519) ∧
    (bls48Account.encryptedKeyfile.publicKey.length = 96 ∧
      createSignedOrderCurve bls48Account = CurveType.BLS12381) :=
  ⟨⟨by decide,
      (curve_detection_total_default_ed25519 oddLen40Account).1 (by decide)⟩,
    ⟨by decide,
      (curve_detection_total_default_ed25519 oddLen100Account).1 (by decide)⟩,
    ⟨by decide,
      ((curve_detection_total_default_ed25519 bls48Account).2 (by decide)).1⟩⟩

/-- Claim C6: both `encryptPrivateKey` and `decryptPrivateKey` hand the AEAD
the first `NONCE_LENGTH = 12` bytes of the Argon2-derived key as nonce — no
independent nonce is generated or stored — and the keyfile's `salt` field is
exactly the hex encoding of the 16 random bytes drawn for this call (the
freshness of the draw itself is the contract of `crypto.getRandomValues`,
modelled by the explicit `salt` argument). -/
theorem nonce_from_derived_key_and_salt_stored
    (kdf : String → Bytes → Bytes)
    (aeadEnc : Bytes → Bytes → Bytes → Bytes)
    (aeadDec : Bytes → Bytes → Bytes → Option Bytes)
    (salt pub k : Bytes) (p addr pw : String)
    (kf : EncryptedCanopyKeyfile) (s ct : Bytes)
    (hlen : salt.length = SALT_LENGTH)
    (hsalt : validBytes salt = true)
    (hs : hexToBytes kf.salt = some s)
    (hct : hexToBytes kf.encrypted = some ct) :
    (encryptPrivateKey kdf aeadEnc salt pub k p addr).encrypted =
      bytesToHex (aeadEnc (kdf p salt) ((kdf p salt).take NONCE_LENGTH) k) ∧
    NONCE_LENGTH = 12 ∧
    (encryptPrivateKey kdf aeadEnc salt pub k p addr).salt = bytesToHex salt ∧
    hexToBytes (encryptPrivateKey kdf aeadEnc salt pub k p addr).salt =
      some salt ∧
    salt.length = 16 ∧
    decryptPrivateKey kdf aeadDec kf pw =
      (match aeadDec (kdf pw s) ((kdf pw s).take NONCE_LENGTH) ct with
        | some pt => Except.ok pt
        | none => Except.error DecryptError.invalidPassword) := by
  refine ⟨rfl, rfl, rfl, hexToBytes_bytesToHex salt hsalt, hlen, ?_⟩
  simp only [decryptPrivateKey, hs, hct]

/-- Witness for `nonce_from_derived_key_and_salt_stored` at the toy cipher
and the concrete test keyfile. -/
theorem nonce_from_derived_key_and_salt_stored_witness :
    (List.replicate 16 7).length = SALT_LENGTH ∧
    validBytes (List.replicate 16 7) = true ∧
    hexToBytes testKeyfile.salt =
      some [0, 17, 34, 51, 68, 85, 102, 119, 136, 153, 170, 187, 204, 221,
        238, 255] ∧
    hexToBytes testKeyfile.encrypted = some [0] ∧
    (encryptPrivateKey shiftKdf taggedEnc (List.replicate 16 7) [1, 2]
        (List.replicate 32 1) "a" "addr").encrypted =
      bytesToHex (taggedEnc (shiftKdf "a" (List.replicate 16 7))
        ((shiftKdf "a" (List.replicate 16 7)).take NONCE_LENGTH)
        (List.replicate 32 1)) ∧
    decryptPrivateKey shiftKdf taggedDec testKeyfile "pw" =
      (match taggedDec
          (shiftKdf "pw" [0, 17, 34, 51, 68, 85, 102, 119, 136, 153, 170, 187,
            204, 221, 238, 255])
          ((shiftKdf "pw" [0, 17, 34, 51, 68, 85, 102, 119, 136, 153, 170, 187,
            204, 221, 238, 255]).take NONCE_LENGTH) [0] with
        | some pt => Except.ok pt
        | none => Except.error DecryptError.invalidPassword) :=
  have H := nonce_from_derived_key_and_salt_stored shiftKdf taggedEnc taggedDec
    (List.replicate 16 7) [1, 2] (List.replicate 32 1) "a" "addr" "pw"
    testKeyfile
    [0, 17, 34, 51, 68, 85, 102, 119, 136, 153, 170, 187, 204, 221, 238, 255]
    [0] (by decide) (by decide) (by decide) (by decide)
  ⟨by decide, by decide, by decide, by decide, H.1, H.2.2.2.2.2⟩

/-- Claim C7.  The claim says the decrypted private-key buffer is zeroed on
every exit path of the build operation.  The flow body (order.ts:51-95)
contains no clearing of `privateKeyBytes` on any path, and the repository's
only clearing utility, `CryptoUtils.clearSensitiveData` (crypto.ts:171-178),
is both never invoked by the build flows and observably a no-op (it reassigns
a local callback parameter).  At exit of a successful build the buffer still
holds the decrypted key bytes, not zeros. -/
theorem private_key_buffer_not_zeroed :
    (∀ l, clearSensitiveData l = l) ∧
    createSignedOrderFinalKeyBuffer constKdf okAead testAccount "pw" =
      some (List.replicate 32 1) ∧
    (List.replicate 32 1 : Bytes) ≠ List.replicate 32 0 := by
  refine ⟨fun l => ?_, by decide, by decide⟩
  simp [clearSensitiveData]

def scenarioBParams : TransactionParams :=
  { type := "createOrder", msg := createOrderMessage 1 "" 100 50 "aa" "bb",
    fee := 10000, memo := "", networkID := 1, chainID := 1, height := 500 }

/-- Claim C8: the `SendRawTransactionRequest` built by
`createAndSignTransaction` carries `signature.publicKey` equal to the input
public-key hex, the supplied `type`, `msg`, `fee`, `memo`, `networkID` and
`chainID` unchanged, `createdHeight` equal to the supplied height, and — for
an ED25519 key — a 128-hex-character signature.  The signing module is
spec-modelled (`signMessage`); `hlen` is the spec's ED25519 contract of a
64-byte raw signature. -/
theorem signed_transaction_fields_and_sig_length
    (getSignBytesProtobuf : UnsignedTransaction → Bytes)
    (ed25519Sign blsSign : Bytes → String → Bytes)
    (now : Int) (params : TransactionParams)
    (privateKeyHex publicKeyHex : String) (curveType : CurveType)
    (hlen : ∀ m key, (ed25519Sign m key).length = 64) :
    (createAndSignTransaction getSignBytesProtobuf
        (signMessage ed25519Sign blsSign) now params privateKeyHex publicKeyHex
        curveType).raw_transaction.signature.publicKey = publicKeyHex ∧
    (createAndSignTransaction getSignBytesProtobuf
        (signMessage ed25519Sign blsSign) now params privateKeyHex publicKeyHex
        curveType).raw_transaction.type = params.type ∧
    (createAndSignTransaction getSignBytesProtobuf
        (signMessage ed25519Sign blsSign) now params privateKeyHex publicKeyHex
        curveType).raw_transaction.msg = params.msg ∧
    (createAndSignTransaction getSignBytesProtobuf
        (signMessage ed25519Sign blsSign) now params privateKeyHex publicKeyHex
        curveType).raw_transaction.fee = params.fee ∧
    (createAndSignTransaction getSignBytesProtobuf
        (signMessage ed25519Sign blsSign) now params privateKeyHex publicKeyHex
        curveType).raw_transaction.memo = params.memo ∧
    (createAndSignTransaction getSignBytesProtobuf
        (signMessage ed25519Sign blsSign) now params privateKeyHex publicKeyHex
        curveType).raw_transaction.networkID = params.networkID ∧
    (createAndSignTransaction getSignBytesProtobuf
        (signMessage ed25519Sign blsSign) now params privateKeyHex publicKeyHex
        curveType).raw_transaction.chainID = params.chainID ∧
    (createAndSignTransaction getSignBytesProtobuf
        (signMessage ed25519Sign blsSign) now params privateKeyHex publicKeyHex
        curveType).raw_transaction.createdHeight = params.height ∧
    (curveType = CurveType.ED25519 →
      (createAndSignTransaction getSignBytesProtobuf
          (signMessage ed25519Sign blsSign) now params privateKeyHex
          publicKeyHex curveType).raw_transaction.signature.signature.length =
        128) := by
  refine ⟨rfl, rfl, rfl, rfl, rfl, rfl, rfl, rfl, ?_⟩
  intro h
  subst h
  simp [createAndSignTransaction, signMessage, bytesToHex_length, hlen]

def const64Sig : Bytes → String → Bytes := fun _ _ => List.replicate 64 0

/-- Witness for `signed_transaction_fields_and_sig_length` with a constant
64-byte ED25519 signer at the spec's Scenario B parameters. -/
theorem signed_transaction_fields_and_sig_length_witness :
    (createAndSignTransaction (fun _ => []) (signMessage const64Sig const64Sig)
        0 scenarioBParams "cc" "dd"
        CurveType.ED25519).raw_transaction.signature.publicKey = "dd" ∧
    (createAndSignTransaction (fun _ => []) (signMessage const64Sig const64Sig)
        0 scenarioBParams "cc" "dd"
        CurveType.ED25519).raw_transaction.fee = 10000 ∧
    (createAndSignTransaction (fun _ => []) (signMessage const64Sig const64Sig)
        0 scenarioBParams "cc" "dd"
        CurveType.ED25519).raw_transaction.createdHeight = 500 ∧
    (createAndSignTransaction (fun _ => []) (signMessage const64Sig const64Sig)
        0 scenarioBParams "cc" "dd"
        CurveType.ED25519).raw_transaction.signature.signature.length = 128 :=
  have H := signed_transaction_fields_and_sig_length (fun _ => []) const64Sig
    const64Sig 0 scenarioBParams "cc" "dd" CurveType.ED25519
    (fun _ _ => by simp [const64Sig])
  ⟨H.1, H.2.2.2.1, H.2.2.2.2.2.2.2.1, H.2.2.2.2.2.2.2.2 rfl⟩

def testNetworkParams : NetworkParams :=
  { networkID := 1, chainID := 1, currentHeight := 500, fee := 10000 }

/-- The transaction `createSignedOrder` builds at the concrete test fixtures
(the decrypted key is `okAead`'s constant all-ones buffer). -/
def testBuildResult : SendRawTransactionRequest :=
  createAndSignTransaction (fun _ => []) (fun _ _ _ => "") 0
    { type := "createOrder",
      msg := createOrderMessage 1 "" 100 50 "aa" "bb",
      fee := 10000, memo := "", networkID := 1, chainID := 1, height := 500 }
    (bytesToHex (List.replicate 32 1)) testKeyfile.publicKey
    (createSignedOrderCurve testAccount)

/-- Claim C9: every `CreateOrder` message built by `createOrderMessage`
carries the empty-string `orderId` (part_001:127), and hence so does the
message inside every transaction `createSignedOrder` returns. -/
theorem order_id_empty_on_creation
    (chainId : Int) (data : String) (amountForSale requestedAmount : Int)
    (recvAddr sendAddr : String)
    (kdf : String → Bytes → Bytes)
    (aeadDec : Bytes → Bytes → Bytes → Option Bytes)
    (enc : UnsignedTransaction → Bytes)
    (sign : Bytes → String → CurveType → String) (now : Int)
    (storedKey : CanopyWalletAccount) (password : String)
    (orderParams : OrderParams) (networkParams : NetworkParams)
    (res : SendRawTransactionRequest)
    (h : createSignedOrder kdf aeadDec enc sign now storedKey password
      orderParams networkParams = .ok res) :
    (createOrderMessage chainId data amountForSale requestedAmount recvAddr
      sendAddr).orderIdField = some "" ∧
    res.raw_transaction.msg.orderIdField = some "" := by
  refine ⟨rfl, ?_⟩
  cases hd : decryptPrivateKey kdf aeadDec storedKey.encryptedKeyfile password
    with
  | error e => simp [createSignedOrder, hd] at h
  | ok pk =>
    simp only [createSignedOrder, hd, Except.ok.injEq] at h
    subst h
    rfl

/-- Witness for `order_id_empty_on_creation` at the concrete fixtures. -/
theorem order_id_empty_on_creation_witness :
    createSignedOrder constKdf okAead (fun _ => []) (fun _ _ _ => "") 0
      testAccount "pw" testOrderParams testNetworkParams =
      .ok testBuildResult ∧
    (createOrderMessage 1 "" 100 50 "aa" "bb").orderIdField = some "" ∧
    testBuildResult.raw_transaction.msg.orderIdField = some "" :=
  have H := order_id_empty_on_creation 1 "" 100 50 "aa" "bb" constKdf okAead
    (fun _ => []) (fun _ _ _ => "") 0 testAccount "pw" testOrderParams
    testNetworkParams testBuildResult (by decide)
  ⟨by decide, H.1, H.2⟩

end Swap
